import Mathlib

set_option maxRecDepth 8000

/-!
Verification development for the vtopapi repository.

The file embeds, as executable Lean definitions, the parts of the source
that the specification's claims are about:

* `src/captchasolver.js` — the template-matcher pipeline (`captcha_parse`)
  and the linear-classifier pipeline (`saturation`, `pre_img`, `flatten`,
  `mat_mul`, `mat_add`, `max_soft`, `solveCaptchaFromBase64`);
* `src/app.js` — the login orchestration (`fetchWithSession`,
  `checkResponseForErrors`, `attemptLogin`) and the session registry
  (`getUserClient`, the `setInterval` sweep, and the synchronous prefix of
  the `/initialdata` handler).

JavaScript numbers are modelled exactly: the quantities that arise here are
integers and ratios of small integers, represented as `Nat`/`Int`/`ℚ`; the
IEEE `NaN` produced by `0/0` is modelled as `Option.none`, and a thrown
`TypeError` (reading a property of `undefined`) makes the embedded function
return `Option.none` at the outer level.  `Math.exp` inside `max_soft` is
kept as an explicit function parameter (it is the only transcendental
operation in the source); theorems that need it assume only its positivity,
which `Math.exp` has.
-/

namespace VtopApi

/-! ## Template-matcher pipeline (`captcha_parse`, captchasolver.js lines 8-57) -/

/-- The store of the JS 2D array `imgarr` (a 44-row × 179-column grid of
integer intensities): the value held at each in-bounds cell.  All reads go
through `jread`/`jreadv`, which add the JavaScript indexing behaviour. -/
abbrev TGrid := Nat → Nat → Nat

/-- Templates (`bitmaps[ch]` in the source): a 32×30 integer bitmap.  The
data file `bitmaps.json` is loaded at process start and is not part of the
sources, so masks are kept as parameters. -/
abbrev Mask := Nat → Nat → Nat

/-- Model of the JavaScript read `imgarr[r][c]` on a 44×179 array of arrays:
`none` models a thrown `TypeError` (`imgarr[r]` is `undefined` because the
row index is out of bounds, and reading `[c]` on `undefined` throws);
`some none` models the value `undefined` (the row exists but the column is
out of bounds); `some (some v)` is a stored number. -/
def jread (g : TGrid) (r c : Nat) : Option (Option Nat) :=
  if r < 44 then some (if c < 179 then some (g r c) else none) else none

/-- The body of the noise-cleaning double loop of `captcha_parse` at indices
`x`, `y` (lines 10-25).  `condition2` reads `imgarr[x+1][y]` behind the
short-circuiting `&&`; for `x = 43` that row read is out of bounds and
throws, which the result `none` records.  A cell satisfying any of the three
conditions is flattened to background (255). -/
def cleanStep (g : TGrid) (x y : Nat) : Option TGrid := do
  let a ← jread g x (y - 1)
  let b ← jread g x y
  let c ← jread g x (y + 1)
  let cond1 := a == some 255 && b == some 0 && c == some 255
  let p ← jread g (x - 1) y
  let cond2 ← if p == some 255 && b == some 0 then
      (jread g (x + 1) y).map (fun q => q == some 255)
    else pure false
  let cond3 := b != some 255 && b != some 0
  pure (if cond1 || cond2 || cond3 then
      fun r s => if r = x ∧ s = y then 255 else g r s
    else g)

/-- The full cleaning pass: `x` runs over 1..43 and `y` over 1..178, in
source order, mutating the grid in place (later cells see earlier writes).
`none` records the reachable out-of-bounds throw of `cleanStep`. -/
def cleanGrid (g0 : TGrid) : Option TGrid :=
  (List.range 43).foldlM
    (fun g xi => (List.range 178).foldlM (fun h yi => cleanStep h (xi + 1) (yi + 1)) g)
    g0

/-- The template matcher's 34-symbol table (line 28 of captchasolver.js). -/
def tmplChars : List Char := "123456789ABCDEFGHIJKLMNPQRSTUVWXYZ".toList

/-- Value-level read used in the matching loops: `imgarr[x1][y1]` with
`x1 ≤ 43` always a valid row, but `y1` reaching 179 in the last band, where
the JS read yields `undefined` (here `none`), which compares unequal to
every number. -/
def jreadv (g : TGrid) (r c : Nat) : Option Nat :=
  if r < 44 ∧ c < 179 then some (g r c) else none

/-- The index pairs of the 32×30 matching loops (lines 34-45). -/
def maskCells : List (Nat × Nat) := (List.range 32).product (List.range 30)

/-- `match` of the matching loop for band offset `j` (the source's loop
variable, one of 30, 60, …, 180): counts the template foreground pixels
(`mask[x][y] == 0`) whose image cell `imgarr[x+12][y+j-30]` equals the mask
value, i.e. is also 0. -/
def matchCount (g : TGrid) (mask : Mask) (j : Nat) : Nat :=
  maskCells.countP
    (fun xy => jreadv g (xy.1 + 12) (xy.2 + j - 30) == some (mask xy.1 xy.2)
      && mask xy.1 xy.2 == 0)

/-- `black` of the matching loop: the total count of template foreground
pixels. -/
def blackCount (mask : Mask) : Nat :=
  maskCells.countP (fun xy => mask xy.1 xy.2 == 0)

/-- The exact value of the score `perc = match / black` when `black ≠ 0`. -/
def scoreAt (g : TGrid) (mask : Mask) (j : Nat) : ℚ :=
  (matchCount g mask j : ℚ) / (blackCount mask : ℚ)

/-- The score as the JS division computes it: `0/0` is `NaN` (`none`) when
the template has no foreground pixel, otherwise the exact ratio. -/
def percOf (g : TGrid) (mask : Mask) (j : Nat) : Option ℚ :=
  if blackCount mask = 0 then none else some (scoreAt g mask j)

/-- JavaScript `a > b` on possibly-`NaN` numbers: any comparison involving
`NaN` is false. -/
def optGt : Option ℚ → Option ℚ → Bool
  | some x, some y => decide (y < x)
  | _, _ => false

/-- The body of the `reduce` on line 50-52: keep the accumulator only if its
score is strictly greater, otherwise move to the current element. -/
def jsPick (a b : Option ℚ × Char) : Option ℚ × Char :=
  if optGt a.1 b.1 then a else b

/-- The `matches` list of one band: a score/symbol pair per table symbol, in
table order. -/
def bandPairs (g : TGrid) (masks : Char → Mask) (j : Nat) : List (Option ℚ × Char) :=
  tmplChars.map (fun ch => (percOf g (masks ch) j, ch))

/-- The symbol a band contributes: the second component of the `reduce` over
`matches` with initial accumulator `[0, 0]` (its second slot is the JS
number 0, modelled by a placeholder character; the accumulator is provably
replaced at the first element, so the placeholder never escapes). -/
def bandChar (g : TGrid) (masks : Char → Mask) (j : Nat) : Char :=
  ((bandPairs g masks j).foldl jsPick (some 0, '0')).2

/-- `captcha_parse`: clean the grid in place, then concatenate the six band
symbols for `j = 30, 60, …, 180`.  `none` records the grid patterns on which
the cleaning pass throws. -/
def captcha_parse (g : TGrid) (masks : Char → Mask) : Option (List Char) :=
  (cleanGrid g).map (fun g2 => (List.range 6).map (fun i => bandChar g2 masks (30 * i + 30)))

/-! ## Per-pixel saturation (`saturation`, captchasolver.js lines 77-83) -/

/-- `Math.round` for the nonnegative values that occur here: round half up. -/
def jsRound (q : ℚ) : ℤ := ⌊q + 1 / 2⌋

/-- The per-pixel saturation `Math.round(((max - min) * 255) / max)` over the
R, G, B channels of one pixel.  When `max = 0` (an all-black pixel) the JS
division is `0 / 0 = NaN`, modelled as `none`; otherwise the value is an
integer. -/
def satPixel (r g b : Nat) : Option Int :=
  let mn := min r (min g b)
  let mx := max r (max g b)
  if mx = 0 then none
  else some (jsRound (((mx - mn : Nat) : ℚ) * 255 / (mx : ℚ)))

/-! ## Linear-classifier pipeline (`saturation` … `solveCaptchaFromBase64`) -/

/-- The saturation vector: entry `k` is computed from bytes `4k`, `4k+1`,
`4k+2` of the canvas image data (line 79-83). -/
def saturateVec (d : Nat → Nat) (k : Nat) : Option Int :=
  satPixel (d (4 * k)) (d (4 * k + 1)) (d (4 * k + 2))

/-- The 40×200 grid `img` built from the saturation vector
(`img[i][j] = saturate[i*200 + j]`, lines 84-90). -/
def satGrid (d : Nat → Nat) : List (List (Option Int)) :=
  (List.range 40).map (fun i => (List.range 200).map (fun j => saturateVec d (i * 200 + j)))

/-- The six per-character cells `bls[i]` (lines 91-100):
`img.slice(y1, y2).map(r => r.slice(x1, x2))` with
`x1 = (i+1)*25 + 2`, `x2 = (i+2)*25 + 1`, `y1 = 7 + 5*(i%2) + 1`,
`y2 = 35 - 5*((i+1)%2)`; each cell is 22 rows × 24 columns. -/
def cellSlices (img : List (List (Option Int))) : List (List (List (Option Int))) :=
  (List.range 6).map (fun i =>
    ((img.drop (7 + 5 * (i % 2) + 1)).take ((35 - 5 * ((i + 1) % 2)) - (7 + 5 * (i % 2) + 1))).map
      (fun row => (row.drop ((i + 1) * 25 + 2)).take (((i + 2) * 25 + 1) - ((i + 1) * 25 + 2))))

/-- JS summation over possibly-`NaN` values: `NaN` taints the sum. -/
def jsSum (l : List (Option Int)) : Option Int :=
  l.foldl (fun acc v => do pure ((← acc) + (← v))) (some 0)

/-- `pre_img` (lines 59-75): binarize a cell against its own mean — the sum
of all entries divided by the hardcoded `24 * 22`.  A cell containing a
`NaN` entry has a `NaN` mean, and every JS comparison against `NaN` is
false, so such a cell binarizes to all zeros. -/
def pre_img (cell : List (List (Option Int))) : List (List Nat) :=
  let avg : Option ℚ := (jsSum (cell.map jsSum)).map (fun s => (s : ℚ) / (24 * 22))
  cell.map (fun row => row.map (fun v =>
    match v, avg with
    | some x, some a => if a < (x : ℚ) then 1 else 0
    | _, _ => 0))

/-- `flatten` (lines 104-112): row-major flattening using `arr[0].length` as
the stride; on the rectangular cells produced here this is concatenation. -/
def flatten (arr : List (List Nat)) : List Nat := arr.flatten

/-- `mat_mul` (lines 114-134): `product[i][j] = Σ_k a[i][k] * b[k][j]` with
`z = a[0].length`, `y = b[0].length`.  The guard records the shapes under
which every JS index read is defined; outside it the JS code reads an
out-of-range index, producing a thrown `TypeError` or `NaN`-poisoned rows,
both collapsed to `none` here. -/
def mat_mul (a b : List (List ℚ)) : Option (List (List ℚ)) :=
  let z := (a.headD []).length
  let y := (b.headD []).length
  if a.all (fun r => r.length = z) && (decide (z ≤ b.length)) && b.all (fun r => r.length = y) then
    some (a.map (fun ar => (List.range y).map
      (fun j => ((List.range z).map (fun k => ar.getD k 0 * (b.getD k []).getD j 0)).sum)))
  else none

/-- `mat_add` (lines 136-143): `c[i] = a[i] + b[i]` for `i < a.length`; a
bias vector shorter than `a` would make the JS read `undefined` and the sum
`NaN`, collapsed to `none`. -/
def mat_add (a b : List ℚ) : Option (List ℚ) :=
  if a.length ≤ b.length then
    some ((List.range a.length).map (fun i => a.getD i 0 + b.getD i 0))
  else none

/-- `max_soft` (lines 145-155) with `Math.exp` as the explicit parameter
`f`: divide each `f`-image by the sum of all of them. -/
def max_soft (f : ℚ → ℚ) (a : List ℚ) : List ℚ :=
  let s := (a.map f).sum
  a.map (fun x => f x / s)

/-- `Math.max(...arr)` on a nonempty list of (non-`NaN`) numbers. -/
def jsMax : List ℚ → ℚ
  | [] => 0
  | h :: t => t.foldl max h

/-- `arr.indexOf(Math.max(...arr))` (line 193). -/
def idxOfMax (l : List ℚ) : Nat := l.indexOf (jsMax l)

/-- The linear classifier's symbol table `label_txt` (line 182). -/
def linAlphabet : List Char := "ABCDEFGHJKLMNPQRSTUVWXYZ23456789".toList

/-- `label_txt[i]` appended to the output string: a single character when
the index is in range, and the nine characters of the string `"undefined"`
otherwise (JS stringifies the `undefined` read). -/
def labelAt (i : Nat) : List Char :=
  if h : i < linAlphabet.length then [linAlphabet.get ⟨i, h⟩] else "undefined".toList

/-- The body of the per-cell loop (lines 187-195): binarize, flatten,
project through the weights, add the biases, softmax, arg-max, look up the
symbol. -/
def cellChar (w : List (List ℚ)) (bias : List ℚ) (f : ℚ → ℚ)
    (cell : List (List (Option Int))) : Option (List Char) := do
  let prod ← mat_mul [(flatten (pre_img cell)).map (Nat.cast : Nat → ℚ)] w
  let lg ← mat_add (prod.headD []) bias
  pure (labelAt (idxOfMax (max_soft f lg)))

/-- Sequential accumulation of the six cell outputs into `out`; a failure in
any cell aborts the whole computation (the JS `try`/`catch` returns null). -/
def solveCells (f : List (List (Option Int)) → Option (List Char)) :
    List (List (List (Option Int))) → Option (List Char)
  | [] => some []
  | c :: t => do pure ((← f c) ++ (← solveCells f t))

/-- The classification phase shared by `solveCaptchaFromBase64` and
`solveCaptchaFromFile`, starting from the 200×40 RGBA canvas bytes `d`. -/
def solveLinearData (d : Nat → Nat) (w : List (List ℚ)) (bias : List ℚ) (f : ℚ → ℚ) :
    Option (List Char) :=
  solveCells (cellChar w bias f) (cellSlices (satGrid d))

/-- A successfully decoded source image (`loadImage` succeeded): its
dimensions and a pixel/channel sampling function. -/
structure SrcImage where
  width : Nat
  height : Nat
  px : Nat → Nat → Nat → Nat

/-- `ctx.drawImage(img, 0, 0, 200, 40)` followed by `getImageData`: the
source image is scaled onto the fixed 200×40 canvas whatever its own
resolution.  The resampling is modelled as nearest-neighbour (the exact
canvas filter is irrelevant to every claim: only totality and the fixed
output geometry matter); the alpha channel of an opaque canvas is 255. -/
def drawScaled (img : SrcImage) (k : Nat) : Nat :=
  let p := k / 4
  let ch := k % 4
  let x := p % 200
  let y := p / 200
  if ch = 3 then 255 else img.px (x * img.width / 200) (y * img.height / 40) ch

/-- `solveCaptchaFromBase64` (lines 161-205) after a successful
`loadImage`: draw the image scaled onto the 200×40 canvas and run the
linear-classifier pipeline on the canvas bytes.  No resolution check of any
kind is performed. -/
def solveCaptchaFromBase64 (img : SrcImage) (w : List (List ℚ)) (bias : List ℚ)
    (f : ℚ → ℚ) : Option (List Char) :=
  solveLinearData (drawScaled img) w bias f

/-- The shapes `bitmaps.weights` and `bitmaps.biases` must have for every JS
array read of the pipeline to be defined: 528 weight rows (one per pixel of
a flattened 22×24 cell), all of the same width, and at least as many biases
as weight columns. -/
def linShapeOk (w : List (List ℚ)) (bias : List ℚ) : Prop :=
  w.length = 528 ∧ (∀ r ∈ w, r.length = 32) ∧ 32 ≤ bias.length

/-! ## Login orchestration (`fetchWithSession`, `checkResponseForErrors`,
`attemptLogin` — app.js lines 145-257)

The remote portal is modelled as a deterministic script: the outcome of the
`n`-th challenge fetch and the body of the `n`-th login submission.  A fetch
outcome `none` covers every path on which `fetchWithSession` falls through
to the retry delay (no CAPTCHA detected, missing image or token, or a null
solver result); `some c` means a challenge was detected and solved, yielding
the CSRF token and the CAPTCHA guess that the submission will carry.
Network throws do not occur in any scenario the claims describe and are not
modelled. -/

/-- A solved challenge: `{csrf, captchaSolution}` as returned by
`fetchWithSession`. -/
structure Challenge where
  csrf : List Char
  solution : List Char
deriving DecidableEq

/-- The scripted remote portal. -/
structure LoginEnv where
  fetch : Nat → Option Challenge
  submit : Nat → List Char

/-- The value `attemptLogin` resolves with: `{success:true, data}` or
`{success:false, message}`. -/
inductive LoginResult where
  | ok (data : List Char)
  | fail (message : List Char)
deriving DecidableEq

/-- JavaScript `haystack.includes(needle)` on strings. -/
def jsIncludes (needle hay : List Char) : Bool :=
  hay.tails.any (fun t => needle.isPrefixOf t)

/-- The literal credential-failure marker (app.js line 199). -/
def invalidCredMark : List Char := "Invalid LoginId/Password".toList

/-- The literal wrong-guess marker (app.js line 204). -/
def invalidCaptchaMark : List Char := "Invalid Captcha".toList

/-- The three error-classification outcomes of `checkResponseForErrors`. -/
inductive ErrKind where
  | credentials
  | captcha
deriving DecidableEq

/-- `checkResponseForErrors` (lines 195-209): the credential marker is
checked first, then the CAPTCHA marker; absence of both is `null`. -/
def checkResponseForErrors (html : List Char) : Option ErrKind :=
  if jsIncludes invalidCredMark html then some .credentials
  else if jsIncludes invalidCaptchaMark html then some .captcha
  else none

/-- The inner loop of `fetchWithSession` (lines 149-186), with `n` attempts
remaining and `fc` fetches already issued: each iteration issues one GET and
either returns the solved challenge or retries.  Returns the result together
with the updated fetch counter. -/
def fetchLoop (env : LoginEnv) : Nat → Nat → Option Challenge × Nat
  | 0, fc => (none, fc)
  | n + 1, fc =>
    match env.fetch fc with
    | some c => (some c, fc + 1)
    | none => fetchLoop env n (fc + 1)

/-- `fetchWithSession`: up to `maxAttempts = 10` GETs; `null` if none of
them produces a solved challenge. -/
def fetchWithSession (env : LoginEnv) (fc : Nat) : Option Challenge × Nat :=
  fetchLoop env 10 fc

/-- `{success:false, message:"Invalid credentials"}` (line 244). -/
def invalidCredsMsg : List Char := "Invalid credentials".toList

/-- `{success:false, message:"Maximum login attempts reached"}` (line 256). -/
def maxAttemptsMsg : List Char := "Maximum login attempts reached".toList

/-- The outer loop of `attemptLogin` (lines 220-254) with `n` attempts
remaining, carrying the fetch and submit counters.  A falsy (empty) CSRF
token or solution falls through to the next attempt exactly like a null
`fetchWithSession` result (line 225). -/
def loginLoop (env : LoginEnv) : Nat → Nat → Nat → LoginResult × Nat × Nat
  | 0, fc, sc => (.fail maxAttemptsMsg, fc, sc)
  | n + 1, fc, sc =>
    match fetchWithSession env fc with
    | (none, fc2) => loginLoop env n fc2 sc
    | (some c, fc2) =>
      if c.csrf = [] ∨ c.solution = [] then loginLoop env n fc2 sc
      else
        let body := env.submit sc
        match checkResponseForErrors body with
        | some .credentials => (.fail invalidCredsMsg, fc2, sc + 1)
        | some .captcha => loginLoop env n fc2 (sc + 1)
        | none => (.ok body, fc2, sc + 1)

/-- `attemptLogin` with `maxAttempts = 5`, starting from fresh counters; the
result is returned together with the total number of challenge fetches and
login submissions issued. -/
def attemptLogin (env : LoginEnv) : LoginResult × Nat × Nat :=
  loginLoop env 5 0 0

/-! ## Session registry (`userSessions`, `getUserClient`, the sweep, and the
synchronous prefix of the `/initialdata` handler — app.js lines 36-82 and
1328-1371) -/

/-- `SESSION_TIMEOUT = 5 * 60 * 1000` milliseconds (the source comment
claims 30 minutes; the value is 5). -/
def SESSION_TIMEOUT : Nat := 5 * 60 * 1000

/-- One cached session: `lastUsed` plus the authenticated context
(`studentId`, `csrf`) that the `/initialdata` handler stores after a
successful login.  The owned transport client carries no further state
relevant to the claims. -/
structure Sess where
  lastUsed : Nat
  auth : Option (List Char × List Char)
deriving DecidableEq

/-- The `userSessions` map: an association list keyed by username.  A
JavaScript `Map` has unique keys; theorems that need that fact assume key
nodup explicitly. -/
abbrev Registry := List (List Char × Sess)

/-- Removal of a key, as `userSessions.delete(username)`. -/
def eraseKey (m : Registry) (u : List Char) : Registry :=
  m.filter (fun e => !(e.1 == u))

/-- `getUserClient` (lines 40-67) at time `now`: reuse a non-expired session
(refreshing `lastUsed` in place, preserving its stored tokens), drop an
expired one and replace it by a fresh session, or create a fresh session for
an unknown user.  Only the registry effect is returned. -/
def getUserClient (m : Registry) (now : Nat) (u : List Char) : Registry :=
  match m.lookup u with
  | some s =>
    if now - s.lastUsed < SESSION_TIMEOUT then
      (u, { s with lastUsed := now }) :: eraseKey m u
    else
      (u, { lastUsed := now, auth := none }) :: eraseKey m u
  | none => (u, { lastUsed := now, auth := none }) :: m

/-- The `setInterval` sweep (lines 70-82) at time `now`: delete every
session with `now - lastUsed > SESSION_TIMEOUT`. -/
def sweepSessions (now : Nat) (m : Registry) : Registry :=
  m.filter (fun e => !(decide (SESSION_TIMEOUT < now - e.2.lastUsed)))

/-- Server state for the concurrency model: the registry plus a collaborator
counter of login attempts started (`attemptLogin` invocations). -/
structure Srv where
  reg : Registry
  loginStarts : Nat
deriving DecidableEq

/-- The synchronous prefix of the `/initialdata` handler (lines 1330-1342):
`getUserClient`, re-read the session, and — unless it already carries
`studentId` and `csrf` — start `attemptLogin`.  Everything up to that
`await` runs atomically on the Node event loop, so N requests that arrive
before any login resolves execute `phaseA` back to back. -/
def phaseA (u : List Char) (now : Nat) (s : Srv) : Srv :=
  let reg2 := getUserClient s.reg now u
  match reg2.lookup u with
  | some sess =>
    if sess.auth.isSome then { reg := reg2, loginStarts := s.loginStarts }
    else { reg := reg2, loginStarts := s.loginStarts + 1 }
  | none => { reg := reg2, loginStarts := s.loginStarts + 1 }

/-! ## Concrete instances used by counterexamples and witnesses -/

/-- An all-background (255) grid: every template scores 0 on every band. -/
def whiteGrid : TGrid := fun _ _ => 255

/-- An all-zero grid. -/
def zeroGrid : TGrid := fun _ _ => 0

/-- A grid with 255 everywhere on row 42 and 0 elsewhere: when the cleaning
loop reaches `x = 43`, `y = 1`, the first two conjuncts of `condition2` hold
(`imgarr[42][1] === 255`, `imgarr[43][1] === 0`), so the JS code evaluates
`imgarr[44][1]` and throws. -/
def crashGrid : TGrid := fun x _ => if x = 42 then 255 else 0

/-- An all-foreground template for every symbol (`black = 960 > 0`). -/
def zeroMasks : Char → Mask := fun _ _ _ => 0

/-- A zero 528×32 weight matrix. -/
def zeroW : List (List ℚ) := List.replicate 528 (List.replicate 32 0)

/-- A zero bias vector of length 32. -/
def zeroB : List ℚ := List.replicate 32 0

/-- A positive stand-in for `Math.exp`. -/
def oneFun : ℚ → ℚ := fun _ => 1

/-- A 10×10 source image — a resolution that matches neither pipeline
geometry. -/
def demoImage : SrcImage := { width := 10, height := 10, px := fun _ _ _ => 7 }

/-- All-zero canvas bytes (a black image: every pixel hits the `max = 0`
division of `saturation`). -/
def blackData : Nat → Nat := fun _ => 0

/-- A scripted portal that always serves a solvable challenge and always
answers submissions with the credential-failure marker. -/
def envAlwaysBadCreds : LoginEnv :=
  { fetch := fun _ => some ⟨"t".toList, "ABC123".toList⟩
    submit := fun _ => invalidCredMark }

/-- A scripted portal whose first submission response contains both literal
markers and whose later responses are clean. -/
def envBothMarkers : LoginEnv :=
  { fetch := fun _ => some ⟨"t".toList, "ABC123".toList⟩
    submit := fun n => if n = 0 then invalidCredMark ++ ' ' :: invalidCaptchaMark
      else "welcome".toList }

/-- A scripted portal answering a wrong-guess marker to the first
submission and a clean page to the rest. -/
def envCaptchaThenOk : LoginEnv :=
  { fetch := fun _ => some ⟨"t".toList, "ABC123".toList⟩
    submit := fun n => if n = 0 then invalidCaptchaMark else "welcome".toList }

/-- A scripted portal on which no fetch ever produces a detectable
challenge. -/
def envNoCaptcha : LoginEnv := { fetch := fun _ => none, submit := fun _ => [] }

/-- A sample principal. -/
def user1 : List Char := "stu1".toList

/-- A one-entry registry whose session was last used at time 0. -/
def regSample : Registry := [(user1, { lastUsed := 0, auth := none })]

/-! ## The claims exactly as the specification states them, where the
counterexample refutes the quantified form -/

/-- Claim C1 as stated: an input image whose resolution is not the
pipeline's 40×200 geometry makes decoding fail (`DecodeError`, i.e. no
classification result). -/
def claimC1stated : Prop :=
  ∀ (img : SrcImage) (w : List (List ℚ)) (bias : List ℚ) (f : ℚ → ℚ),
    ¬(img.width = 200 ∧ img.height = 40) → solveCaptchaFromBase64 img w bias f = none

/-- A fetch outcome carrying a challenge with truthy token and solution. -/
def goodChallenge : Option Challenge → Prop
  | some c => c.csrf ≠ [] ∧ c.solution ≠ []
  | none => False

/-- Claim C4 as stated: whenever challenges are always obtainable, the first
submission response contains the wrong-guess marker, and the second contains
neither marker, `attemptLogin` succeeds with the second body after exactly 2
submissions over 2 challenge fetches. -/
def claimC4stated : Prop :=
  ∀ env : LoginEnv, (∀ n, goodChallenge (env.fetch n)) →
    jsIncludes invalidCaptchaMark (env.submit 0) = true →
    jsIncludes invalidCredMark (env.submit 1) = false →
    jsIncludes invalidCaptchaMark (env.submit 1) = false →
    attemptLogin env = (.ok (env.submit 1), 2, 2)

/-- Claim C5 as stated: when no fetch ever detects a CAPTCHA, the
orchestrator fails after exactly 10 fetches and 0 submissions. -/
def claimC5stated : Prop :=
  ∀ env : LoginEnv, (∀ n, env.fetch n = none) →
    ∃ msg, attemptLogin env = (.fail msg, 10, 0)

/-- Claim C6 as stated: each band selects a maximal-score symbol, and on
ties the first symbol in table order wins (every earlier symbol scores
strictly below the winner). -/
def claimC6stated : Prop :=
  ∀ (g : TGrid) (masks : Char → Mask) (j : Nat), 1 ≤ j → j ≤ 6 →
    (∀ ch ∈ tmplChars, 0 < blackCount (masks ch)) →
    ∃ k, ∃ hk : k < tmplChars.length,
      bandChar g masks (30 * j) = tmplChars.get ⟨k, hk⟩ ∧
      (∀ m, (hm : m < tmplChars.length) →
        scoreAt g (masks (tmplChars.get ⟨m, hm⟩)) (30 * j) ≤
          scoreAt g (masks (tmplChars.get ⟨k, hk⟩)) (30 * j)) ∧
      (∀ m, (hm : m < tmplChars.length) → m < k →
        scoreAt g (masks (tmplChars.get ⟨m, hm⟩)) (30 * j) <
          scoreAt g (masks (tmplChars.get ⟨k, hk⟩)) (30 * j))

/-! ## Helper lemmas: template matcher -/

lemma jsPick_eq_or (a b : Option ℚ × Char) : jsPick a b = a ∨ jsPick a b = b := by
  unfold jsPick
  split
  · exact Or.inl rfl
  · exact Or.inr rfl

lemma foldl_jsPick_mem (l : List (Option ℚ × Char)) (a : Option ℚ × Char) :
    l.foldl jsPick a ∈ a :: l := by
  induction l generalizing a with
  | nil => simp
  | cons b t ih =>
    rw [List.foldl_cons]
    rcases List.mem_cons.1 (ih (jsPick a b)) with h1 | h1
    · rcases jsPick_eq_or a b with h2 | h2 <;> rw [h1, h2] <;> simp
    · exact List.mem_cons_of_mem _ (List.mem_cons_of_mem _ h1)

lemma scoreAt_nonneg (g : TGrid) (mask : Mask) (j : Nat) : 0 ≤ scoreAt g mask j :=
  div_nonneg (Nat.cast_nonneg _) (Nat.cast_nonneg _)

lemma optGt_zero_percOf (g : TGrid) (mask : Mask) (j : Nat) :
    optGt (some 0) (percOf g mask j) = false := by
  unfold percOf
  split
  · rfl
  · exact decide_eq_false (not_lt.2 (scoreAt_nonneg g mask j))

lemma tmplChars_ne_nil : tmplChars ≠ [] := by decide

/-- Every band symbol is a member of the 34-symbol table: the `reduce`
accumulator is replaced at the first element (its initial score 0 is never
strictly above a score, all of which are nonnegative or `NaN`), and from
then on the accumulator is always one of the scored pairs. -/
lemma bandChar_mem (g : TGrid) (masks : Char → Mask) (j : Nat) :
    bandChar g masks j ∈ tmplChars := by
  unfold bandChar bandPairs
  rcases h : tmplChars with _ | ⟨c0, cs⟩
  · exact absurd h tmplChars_ne_nil
  · rw [List.map_cons, List.foldl_cons]
    have hfirst : jsPick (some 0, '0') (percOf g (masks c0) j, c0) = (percOf g (masks c0) j, c0) := by
      unfold jsPick
      rw [optGt_zero_percOf]
      simp
    rw [hfirst]
    have hm := foldl_jsPick_mem (cs.map (fun ch => (percOf g (masks ch) j, ch)))
      (percOf g (masks c0) j, c0)
    rcases List.mem_cons.1 hm with h1 | h1
    · rw [h1]
      exact List.mem_cons_self _ _
    · rcases List.mem_map.1 h1 with ⟨ch, hch, hpair⟩
      rw [← hpair]
      exact List.mem_cons_of_mem _ hch

/-- The strict-greater-keeps-accumulator fold on exact scores. -/
def qPick (a b : ℚ × Char) : ℚ × Char := if b.1 < a.1 then a else b

/-- Wrapping an exact score as a non-`NaN` JS number. -/
def wrapP (p : ℚ × Char) : Option ℚ × Char := (some p.1, p.2)

lemma jsPick_wrap (a b : ℚ × Char) : jsPick (wrapP a) (wrapP b) = wrapP (qPick a b) := by
  unfold jsPick wrapP qPick optGt
  by_cases h : b.1 < a.1
  · simp [h]
  · simp [h]

lemma foldl_jsPick_wrap (l : List (ℚ × Char)) (a : ℚ × Char) :
    (l.map wrapP).foldl jsPick (wrapP a) = wrapP (l.foldl qPick a) := by
  induction l generalizing a with
  | nil => rfl
  | cons b t ih => rw [List.map_cons, List.foldl_cons, List.foldl_cons, jsPick_wrap, ih]

/-- The fold either keeps an accumulator that strictly dominates the whole
list, or lands on the element of the list that attains the maximum score at
the latest position (later elements replace the accumulator on ties). -/
lemma foldl_qPick_spec (l : List (ℚ × Char)) (a : ℚ × Char) :
    (l.foldl qPick a = a ∧ ∀ b ∈ l, b.1 < a.1) ∨
    (∃ k, ∃ hk : k < l.length, l.foldl qPick a = l.get ⟨k, hk⟩ ∧
      a.1 ≤ (l.get ⟨k, hk⟩).1 ∧
      (∀ m, (hm : m < l.length) → (l.get ⟨m, hm⟩).1 ≤ (l.get ⟨k, hk⟩).1) ∧
      (∀ m, (hm : m < l.length) → k < m → (l.get ⟨m, hm⟩).1 < (l.get ⟨k, hk⟩).1)) := by
  induction l generalizing a with
  | nil => exact Or.inl ⟨rfl, by simp⟩
  | cons b t ih =>
    rw [List.foldl_cons]
    by_cases hab : b.1 < a.1
    · have hq : qPick a b = a := if_pos hab
      rw [hq]
      rcases ih a with ⟨h1, h2⟩ | ⟨k, hk, h1, h2, h3, h4⟩
      · refine Or.inl ⟨h1, ?_⟩
        intro x hx
        rcases List.mem_cons.1 hx with rfl | hx
        · exact hab
        · exact h2 x hx
      · refine Or.inr ⟨k + 1, Nat.succ_lt_succ hk, ?_, ?_, ?_, ?_⟩
        · simpa using h1
        · simpa using h2
        · intro m hm
          cases m with
          | zero => simpa using le_trans (le_of_lt hab) h2
          | succ m2 => simpa using h3 m2 (Nat.lt_of_succ_lt_succ hm)
        · intro m hm hkm
          cases m with
          | zero => exact absurd hkm (Nat.not_lt_zero _).elim
          | succ m2 => simpa using h4 m2 (Nat.lt_of_succ_lt_succ hm) (Nat.lt_of_succ_lt_succ hkm)
    · have hq : qPick a b = b := if_neg hab
      rw [hq]
      rcases ih b with ⟨h1, h2⟩ | ⟨k, hk, h1, h2, h3, h4⟩
      · refine Or.inr ⟨0, Nat.succ_pos _, by simpa using h1, ?_, ?_, ?_⟩
        · simpa using not_lt.1 hab
        · intro m hm
          cases m with
          | zero => simp
          | succ m2 => simpa using le_of_lt (h2 _ (t.get_mem m2 (Nat.lt_of_succ_lt_succ hm)))
        · intro m hm hkm
          cases m with
          | zero => exact absurd hkm (lt_irrefl 0)
          | succ m2 => simpa using h2 _ (t.get_mem m2 (Nat.lt_of_succ_lt_succ hm))
      · refine Or.inr ⟨k + 1, Nat.succ_lt_succ hk, ?_, ?_, ?_, ?_⟩
        · simpa using h1
        · simpa using le_trans (not_lt.1 hab) h2
        · intro m hm
          cases m with
          | zero => simpa using h2
          | succ m2 => simpa using h3 m2 (Nat.lt_of_succ_lt_succ hm)
        · intro m hm hkm
          cases m with
          | zero => exact absurd hkm (Nat.not_lt_zero _).elim
          | succ m2 => simpa using h4 m2 (Nat.lt_of_succ_lt_succ hm) (Nat.lt_of_succ_lt_succ hkm)

lemma bandPairs_eq_wrap (g : TGrid) (masks : Char → Mask) (j : Nat)
    (hb : ∀ ch ∈ tmplChars, blackCount (masks ch) ≠ 0) :
    bandPairs g masks j = (tmplChars.map (fun ch => (scoreAt g (masks ch) j, ch))).map wrapP := by
  unfold bandPairs
  rw [List.map_map]
  apply List.map_congr_left
  intro ch hch
  simp [Function.comp, wrapP, percOf, hb ch hch]

/-- The band symbol is the symbol of largest score whose table position is
latest among the maximal ones. -/
lemma bandChar_lastArgmax (g : TGrid) (masks : Char → Mask) (j : Nat)
    (hb : ∀ ch ∈ tmplChars, 0 < blackCount (masks ch)) :
    ∃ k, ∃ hk : k < tmplChars.length,
      bandChar g masks j = tmplChars.get ⟨k, hk⟩ ∧
      (∀ m, (hm : m < tmplChars.length) →
        scoreAt g (masks (tmplChars.get ⟨m, hm⟩)) j ≤
          scoreAt g (masks (tmplChars.get ⟨k, hk⟩)) j) ∧
      (∀ m, (hm : m < tmplChars.length) → k < m →
        scoreAt g (masks (tmplChars.get ⟨m, hm⟩)) j <
          scoreAt g (masks (tmplChars.get ⟨k, hk⟩)) j) := by
  have hb2 : ∀ ch ∈ tmplChars, blackCount (masks ch) ≠ 0 :=
    fun ch h => Nat.pos_iff_ne_zero.1 (hb ch h)
  set scored := tmplChars.map (fun ch => (scoreAt g (masks ch) j, ch)) with hscored
  have hlen : scored.length = tmplChars.length := List.length_map _ _
  have hget : ∀ m (hm2 : m < scored.length),
      scored.get ⟨m, hm2⟩ =
        (scoreAt g (masks (tmplChars.get ⟨m, hlen ▸ hm2⟩)) j, tmplChars.get ⟨m, hlen ▸ hm2⟩) := by
    intro m hm2
    rw [List.get_eq_getElem, List.get_eq_getElem]
    simp [hscored]
  have hchar : bandChar g masks j = (scored.foldl qPick (0, '0')).2 := by
    unfold bandChar
    rw [bandPairs_eq_wrap g masks j hb2, show ((some (0 : ℚ), '0') : Option ℚ × Char) =
      wrapP (0, '0') from rfl, foldl_jsPick_wrap]
    rfl
  rcases foldl_qPick_spec scored (0, '0') with ⟨_, h2⟩ | ⟨k, hk, h1, _, h3, h4⟩
  · exfalso
    have hne : scored ≠ [] := by
      rw [hscored]
      simpa using tmplChars_ne_nil
    obtain ⟨p, hp⟩ := List.exists_mem_of_ne_nil scored hne
    have hlt := h2 p hp
    rw [hscored] at hp
    rcases List.mem_map.1 hp with ⟨ch, _, hpair⟩
    rw [← hpair] at hlt
    exact absurd hlt (not_lt.2 (scoreAt_nonneg _ _ _))
  · refine ⟨k, hlen ▸ hk, ?_, ?_, ?_⟩
    · rw [hchar, h1, hget k hk]
    · intro m hm
      have hm2 : m < scored.length := by rw [hlen]; exact hm
      have := h3 m hm2
      rw [hget m hm2, hget k hk] at this
      exact this
    · intro m hm hkm
      have hm2 : m < scored.length := by rw [hlen]; exact hm
      have := h4 m hm2 hkm
      rw [hget m hm2, hget k hk] at this
      exact this

lemma mem_maskCells (xy : Nat × Nat) : xy ∈ maskCells ↔ xy.1 < 32 ∧ xy.2 < 30 := by
  cases xy with
  | mk x y => simp [maskCells, List.pair_mem_product]

/-- A band's match count reads the image only at rows 12..43 and columns
`j-30 .. j-1` (clipped to the 179 stored columns): two grids agreeing there
give the same count. -/
lemma matchCount_frame (g g2 : TGrid) (mask : Mask) (j : Nat) (hj : 30 ≤ j)
    (hag : ∀ x y, 12 ≤ x → x < 44 → j - 30 ≤ y → y < j → y < 179 → g x y = g2 x y) :
    matchCount g mask j = matchCount g2 mask j := by
  unfold matchCount
  apply List.countP_congr
  intro xy hxy
  have hx := (mem_maskCells xy).1 hxy
  by_cases hc : xy.2 + j - 30 < 179
  · have hr : xy.1 + 12 < 44 := by omega
    have hv : g (xy.1 + 12) (xy.2 + j - 30) = g2 (xy.1 + 12) (xy.2 + j - 30) := by
      apply hag <;> omega
    simp [jreadv, hr, hc, hv]
  · simp [jreadv, hc]

/-- Two grids agreeing on the read region of band offset `j` produce the
same band symbol. -/
lemma bandChar_frame (g g2 : TGrid) (masks : Char → Mask) (j : Nat) (hj : 30 ≤ j)
    (hag : ∀ x y, 12 ≤ x → x < 44 → j - 30 ≤ y → y < j → y < 179 → g x y = g2 x y) :
    bandChar g masks j = bandChar g2 masks j := by
  unfold bandChar
  have hp : bandPairs g masks j = bandPairs g2 masks j := by
    unfold bandPairs
    apply List.map_congr_left
    intro ch _
    have hm := matchCount_frame g g2 (masks ch) j hj hag
    simp [percOf, scoreAt, hm]
  rw [hp]

/-- Whenever `captcha_parse` completes (the cleaning pass does not hit the
out-of-bounds row read), its result is six symbols of the template table. -/
lemma captcha_parse_spec (g : TGrid) (masks : Char → Mask) (out : List Char)
    (h : captcha_parse g masks = some out) :
    out.length = 6 ∧ ∀ c ∈ out, c ∈ tmplChars := by
  unfold captcha_parse at h
  cases hc : cleanGrid g with
  | none =>
    rw [hc] at h
    exact absurd h (by simp)
  | some g2 =>
    rw [hc, Option.map_some'] at h
    obtain rfl := (Option.some.inj h).symm
    refine ⟨by simp, ?_⟩
    intro c hcmem
    rcases List.mem_map.1 hcmem with ⟨i, _, hi⟩
    rw [← hi]
    exact bandChar_mem g2 masks _

/-! ## Helper lemmas: linear-classifier pipeline -/

lemma satGrid_length (d : Nat → Nat) : (satGrid d).length = 40 := by
  simp [satGrid]

lemma satGrid_rows (d : Nat → Nat) : ∀ r ∈ satGrid d, r.length = 200 := by
  intro r hr
  rcases List.mem_map.1 hr with ⟨i, _, hi⟩
  rw [← hi]
  simp

lemma cellSlices_length (img : List (List (Option Int))) : (cellSlices img).length = 6 := by
  simp [cellSlices]

/-- Every cell sliced out of a 40×200 grid is 22 rows of 24 entries. -/
lemma cellSlices_shape (img : List (List (Option Int))) (h40 : img.length = 40)
    (h200 : ∀ r ∈ img, r.length = 200) :
    ∀ cell ∈ cellSlices img, cell.length = 22 ∧ ∀ row ∈ cell, row.length = 24 := by
  intro cell hcell
  simp only [cellSlices, List.mem_map, List.mem_range] at hcell
  obtain ⟨i, hi, rfl⟩ := hcell
  constructor
  · rw [List.length_map, List.length_take, List.length_drop, h40]
    omega
  · intro row hrow
    rcases List.mem_map.1 hrow with ⟨r, hr, hrw⟩
    have hrimg : r ∈ img := List.drop_subset _ _ (List.take_subset _ _ hr)
    rw [← hrw, List.length_take, List.length_drop, h200 r hrimg]
    omega

lemma pre_img_length (cell : List (List (Option Int))) :
    (pre_img cell).length = cell.length := by
  simp [pre_img]

lemma pre_img_rows (cell : List (List (Option Int))) :
    ∀ row ∈ pre_img cell, ∃ r ∈ cell, row.length = r.length := by
  intro row hrow
  rcases List.mem_map.1 hrow with ⟨r, hr, hrw⟩
  exact ⟨r, hr, by rw [← hrw]; simp⟩

lemma flatten_length (arr : List (List Nat)) (n k : Nat) (hn : arr.length = n)
    (hk : ∀ row ∈ arr, row.length = k) : (flatten arr).length = n * k := by
  unfold flatten
  rw [List.length_flatten]
  have hmap : arr.map List.length = arr.map (fun _ => k) := List.map_congr_left hk
  rw [hmap, List.map_const', List.sum_replicate, smul_eq_mul, hn]

lemma flat_cell_length (cell : List (List (Option Int))) (h22 : cell.length = 22)
    (h24 : ∀ row ∈ cell, row.length = 24) :
    ((flatten (pre_img cell)).map (Nat.cast : Nat → ℚ)).length = 528 := by
  rw [List.length_map]
  apply flatten_length _ 22 24
  · rw [pre_img_length, h22]
  · intro row hrow
    obtain ⟨r, hr, hlen⟩ := pre_img_rows cell row hrow
    rw [hlen, h24 r hr]

/-- `mat_mul [flat] w` succeeds on a 528-long vector against a 528×32 weight
matrix and produces a single row of 32 entries. -/
lemma mat_mul_single (flat : List ℚ) (w : List (List ℚ)) (hw : w.length = 528)
    (hcols : ∀ r ∈ w, r.length = 32) (hflat : flat.length = 528) :
    ∃ prod, mat_mul [flat] w = some prod ∧ (prod.headD []).length = 32 := by
  have hy : (w.headD []).length = 32 := by
    cases w with
    | nil => simp at hw
    | cons r t => exact hcols r (List.mem_cons_self _ _)
  unfold mat_mul
  rw [if_pos]
  · refine ⟨_, rfl, ?_⟩
    simpa using hy
  · simp only [Bool.and_eq_true, List.all_eq_true, decide_eq_true_eq]
    refine ⟨⟨?_, ?_⟩, ?_⟩
    · intro r hr
      rcases List.mem_singleton.1 hr with rfl
      rfl
    · simp [hflat, hw]
    · intro r hr
      rw [hcols r hr, hy]

/-- `mat_add` succeeds when the bias vector is long enough and keeps the
logit count. -/
lemma mat_add_spec (a b : List ℚ) (hab : a.length ≤ b.length) :
    ∃ c, mat_add a b = some c ∧ c.length = a.length := by
  unfold mat_add
  rw [if_pos hab]
  exact ⟨_, rfl, by simp⟩

lemma max_soft_length (f : ℚ → ℚ) (a : List ℚ) : (max_soft f a).length = a.length := by
  simp [max_soft]

lemma foldl_max_mem (t : List ℚ) (h : ℚ) : t.foldl max h ∈ h :: t := by
  induction t generalizing h with
  | nil => simp
  | cons b t2 ih =>
    rw [List.foldl_cons]
    rcases List.mem_cons.1 (ih (max h b)) with h1 | h1
    · rw [h1]
      rcases max_choice h b with h2 | h2 <;> rw [h2] <;> simp
    · exact List.mem_cons_of_mem _ (List.mem_cons_of_mem _ h1)

lemma jsMax_mem (l : List ℚ) (hl : l ≠ []) : jsMax l ∈ l := by
  cases l with
  | nil => exact absurd rfl hl
  | cons h t => exact foldl_max_mem t h

lemma idxOfMax_lt (l : List ℚ) (hl : l ≠ []) : idxOfMax l < l.length :=
  List.indexOf_lt_length.2 (jsMax_mem l hl)

lemma linAlphabet_length : linAlphabet.length = 32 := by decide

lemma labelAt_spec (i : Nat) (hi : i < 32) :
    ∃ ch, labelAt i = [ch] ∧ ch ∈ linAlphabet := by
  have h2 : i < linAlphabet.length := by rw [linAlphabet_length]; exact hi
  unfold labelAt
  rw [dif_pos h2]
  exact ⟨_, rfl, List.get_mem _ _ _⟩

/-- On a well-shaped cell and well-shaped classifier data, one cell yields
exactly one symbol of the linear alphabet. -/
lemma cellChar_spec (w : List (List ℚ)) (bias : List ℚ) (f : ℚ → ℚ)
    (cell : List (List (Option Int))) (hshape : linShapeOk w bias)
    (h22 : cell.length = 22) (h24 : ∀ row ∈ cell, row.length = 24) :
    ∃ ch, cellChar w bias f cell = some [ch] ∧ ch ∈ linAlphabet := by
  obtain ⟨hw, hcols, hbias⟩ := hshape
  have hflat := flat_cell_length cell h22 h24
  obtain ⟨prod, hprod, hprodlen⟩ := mat_mul_single _ w hw hcols hflat
  have hble : (prod.headD []).length ≤ bias.length := by rw [hprodlen]; exact hbias
  obtain ⟨lg, hlg, hlglen⟩ := mat_add_spec (prod.headD []) bias hble
  have hlg32 : lg.length = 32 := by rw [hlglen, hprodlen]
  have hsm : (max_soft f lg).length = 32 := by rw [max_soft_length, hlg32]
  have hne : max_soft f lg ≠ [] := by
    intro hcon
    rw [hcon] at hsm
    simp at hsm
  have hidx : idxOfMax (max_soft f lg) < 32 := by
    rw [← hsm]
    exact idxOfMax_lt _ hne
  obtain ⟨ch, hch, hmem⟩ := labelAt_spec _ hidx
  refine ⟨ch, ?_, hmem⟩
  unfold cellChar
  rw [hprod]
  simp only [Option.bind_eq_bind, Option.some_bind]
  rw [hlg]
  simp only [Option.some_bind]
  rw [hch]
  rfl

/-- Sequentially solving a list of cells that each yield one alphabet symbol
yields one symbol per cell. -/
lemma solveCells_spec (f : List (List (Option Int)) → Option (List Char))
    (cells : List (List (List (Option Int))))
    (h : ∀ cell ∈ cells, ∃ ch, f cell = some [ch] ∧ ch ∈ linAlphabet) :
    ∃ out, solveCells f cells = some out ∧ out.length = cells.length ∧
      ∀ c ∈ out, c ∈ linAlphabet := by
  induction cells with
  | nil => exact ⟨[], rfl, rfl, by simp⟩
  | cons c t ih =>
    obtain ⟨ch, hch, hmem⟩ := h c (List.mem_cons_self _ _)
    obtain ⟨out, hout, hlen, hall⟩ := ih (fun cell hc => h cell (List.mem_cons_of_mem _ hc))
    refine ⟨ch :: out, ?_, by simp [hlen], ?_⟩
    · unfold solveCells
      rw [hch]
      simp only [Option.bind_eq_bind, Option.some_bind]
      rw [hout]
      rfl
    · intro x hx
      rcases List.mem_cons.1 hx with rfl | hx
      · exact hmem
      · exact hall x hx

/-- The classification phase always succeeds on well-shaped classifier data,
producing six symbols of the linear alphabet — for canvas bytes of any
origin. -/
lemma solveLinearData_spec (d : Nat → Nat) (w : List (List ℚ)) (bias : List ℚ)
    (f : ℚ → ℚ) (hshape : linShapeOk w bias) :
    ∃ out, solveLinearData d w bias f = some out ∧ out.length = 6 ∧
      ∀ c ∈ out, c ∈ linAlphabet := by
  have hcells := cellSlices_shape (satGrid d) (satGrid_length d) (satGrid_rows d)
  have h : ∀ cell ∈ cellSlices (satGrid d),
      ∃ ch, cellChar w bias f cell = some [ch] ∧ ch ∈ linAlphabet := by
    intro cell hc
    obtain ⟨h22, h24⟩ := hcells cell hc
    exact cellChar_spec w bias f cell hshape h22 h24
  obtain ⟨out, hout, hlen, hall⟩ := solveCells_spec _ _ h
  refine ⟨out, hout, ?_, hall⟩
  rw [hlen, cellSlices_length]

/-! ## Helper lemmas: login orchestration -/

lemma fetchLoop_none (env : LoginEnv) (hnone : ∀ n, env.fetch n = none) :
    ∀ n fc, fetchLoop env n fc = (none, fc + n) := by
  intro n
  induction n with
  | zero => intro fc; rfl
  | succ n ih =>
    intro fc
    rw [show fetchLoop env (n + 1) fc = fetchLoop env n (fc + 1) by
      simp [fetchLoop, hnone fc]]
    rw [ih (fc + 1)]
    congr 1
    omega

lemma fetchWithSession_first (env : LoginEnv) (fc : Nat) (c : Challenge)
    (hfc : env.fetch fc = some c) : fetchWithSession env fc = (some c, fc + 1) := by
  simp [fetchWithSession, fetchLoop, hfc]

lemma loginLoop_none (env : LoginEnv) (hnone : ∀ n, env.fetch n = none) :
    ∀ k fc sc, loginLoop env k fc sc = (.fail maxAttemptsMsg, fc + 10 * k, sc) := by
  intro k
  induction k with
  | zero => intro fc sc; simp [loginLoop]
  | succ k ih =>
    intro fc sc
    have hf : fetchWithSession env fc = (none, fc + 10) := fetchLoop_none env hnone 10 fc
    rw [show loginLoop env (k + 1) fc sc = loginLoop env k (fc + 10) sc by
      simp [loginLoop, hf]]
    rw [ih (fc + 10) sc]
    congr 2
    omega

lemma checkResponse_cred (html : List Char) (h : jsIncludes invalidCredMark html = true) :
    checkResponseForErrors html = some .credentials := by
  simp [checkResponseForErrors, h]

lemma checkResponse_captcha (html : List Char)
    (h1 : jsIncludes invalidCredMark html = false)
    (h2 : jsIncludes invalidCaptchaMark html = true) :
    checkResponseForErrors html = some .captcha := by
  simp [checkResponseForErrors, h1, h2]

lemma checkResponse_clean (html : List Char)
    (h1 : jsIncludes invalidCredMark html = false)
    (h2 : jsIncludes invalidCaptchaMark html = false) :
    checkResponseForErrors html = none := by
  simp [checkResponseForErrors, h1, h2]

lemma loginLoop_round_cred (env : LoginEnv) (k fc sc : Nat) (c : Challenge)
    (hfc : env.fetch fc = some c) (hcs : c.csrf ≠ []) (hsol : c.solution ≠ [])
    (hchk : checkResponseForErrors (env.submit sc) = some .credentials) :
    loginLoop env (k + 1) fc sc = (.fail invalidCredsMsg, fc + 1, sc + 1) := by
  simp [loginLoop, fetchWithSession_first env fc c hfc, hcs, hsol, hchk]

lemma loginLoop_round_captcha (env : LoginEnv) (k fc sc : Nat) (c : Challenge)
    (hfc : env.fetch fc = some c) (hcs : c.csrf ≠ []) (hsol : c.solution ≠ [])
    (hchk : checkResponseForErrors (env.submit sc) = some .captcha) :
    loginLoop env (k + 1) fc sc = loginLoop env k (fc + 1) (sc + 1) := by
  simp [loginLoop, fetchWithSession_first env fc c hfc, hcs, hsol, hchk]

lemma loginLoop_round_ok (env : LoginEnv) (k fc sc : Nat) (c : Challenge)
    (hfc : env.fetch fc = some c) (hcs : c.csrf ≠ []) (hsol : c.solution ≠ [])
    (hchk : checkResponseForErrors (env.submit sc) = none) :
    loginLoop env (k + 1) fc sc = (.ok (env.submit sc), fc + 1, sc + 1) := by
  simp [loginLoop, fetchWithSession_first env fc c hfc, hcs, hsol, hchk]

/-! ## Helper lemmas: session registry -/

lemma lookup_eq_none_of_not_mem (t : Registry) (u : List Char)
    (h : u ∉ t.map Prod.fst) : t.lookup u = none := by
  induction t with
  | nil => rfl
  | cons e t2 ih =>
    cases e with
    | mk k v =>
      simp only [List.map_cons, List.mem_cons] at h
      push_neg at h
      have hne : (u == k) = false := beq_eq_false_iff_ne.2 h.1
      simp [List.lookup, hne, ih h.2]

lemma lookup_filter_of_nodup (m : Registry) (u : List Char) (s : Sess)
    (p : List Char × Sess → Bool) (hnd : (m.map Prod.fst).Nodup)
    (hl : m.lookup u = some s) :
    (m.filter p).lookup u = if p (u, s) then some s else none := by
  induction m with
  | nil => simp [List.lookup] at hl
  | cons e t ih =>
    cases e with
    | mk k v =>
      rw [List.map_cons, List.nodup_cons] at hnd
      by_cases hk : (u == k) = true
      · have huk : u = k := eq_of_beq hk
        have hvs : v = s := by
          rw [List.lookup, hk] at hl
          exact Option.some.inj hl
        subst huk
        subst hvs
        rw [List.filter_cons]
        by_cases hp : p (u, v) = true
        · rw [if_pos hp, hp, if_pos rfl]
          simp [List.lookup]
        · have hp2 : p (u, v) = false := Bool.eq_false_iff.2 hp
          rw [if_neg hp, hp2, if_neg (by simp)]
          apply lookup_eq_none_of_not_mem
          intro hmem
          rcases List.mem_map.1 hmem with ⟨e2, he2, hfst⟩
          have he2t : e2 ∈ t := List.mem_of_mem_filter he2
          have humem : u ∈ t.map Prod.fst := hfst ▸ List.mem_map_of_mem Prod.fst he2t
          exact hnd.1 humem
      · have hk2 : (u == k) = false := Bool.eq_false_iff.2 hk
        rw [List.lookup, hk2] at hl
        rw [List.filter_cons]
        by_cases hp : p (k, v) = true
        · rw [if_pos hp, List.lookup, hk2]
          exact ih hnd.2 hl
        · rw [if_neg hp]
          exact ih hnd.2 hl

lemma getUserClient_head (m : Registry) (tu : Nat) (u : List Char) :
    ∃ rest s2, getUserClient m tu u = (u, s2) :: rest ∧ s2.lastUsed = tu := by
  unfold getUserClient
  split
  · split
    · exact ⟨_, _, rfl, rfl⟩
    · exact ⟨_, _, rfl, rfl⟩
  · exact ⟨_, _, rfl, rfl⟩

/-! ## Helper lemmas: concrete evaluations that avoid brute-force kernel
reduction -/

lemma foldlM_const_option {α β : Type} (f : β → α → Option β) (b : β) (l : List α)
    (h : ∀ a ∈ l, f b a = some b) : l.foldlM f b = some b := by
  induction l with
  | nil => rfl
  | cons a t ih =>
    rw [List.foldlM_cons, h a (List.mem_cons_self _ _)]
    simpa using ih (fun a2 ha => h a2 (List.mem_cons_of_mem _ ha))

/-- On `crashGrid` no cleaning condition fires anywhere in rows 1..42, so
those sweeps leave the grid unchanged. -/
lemma cleanStep_crash_id (x y : Nat) (hx1 : 1 ≤ x) (hx2 : x ≤ 42) (hy1 : 1 ≤ y)
    (hy2 : y ≤ 178) : cleanStep crashGrid x y = some crashGrid := by
  have hx44 : x < 44 := by omega
  have hxm : x - 1 < 44 := by omega
  have hy179 : y < 179 := by omega
  have hym : y - 1 < 179 := by omega
  have hxm42 : x - 1 ≠ 42 := by omega
  by_cases hx42 : x = 42
  · subst hx42
    by_cases hy3 : y + 1 < 179
    · simp [cleanStep, jread, crashGrid, hy179, hym, hy3]
    · simp [cleanStep, jread, crashGrid, hy179, hym, hy3]
  · by_cases hy3 : y + 1 < 179
    · simp [cleanStep, jread, crashGrid, hy179, hym, hy3, hx44, hxm, hx42, hxm42]
    · simp [cleanStep, jread, crashGrid, hy179, hym, hy3, hx44, hxm, hx42, hxm42]

/-- At `x = 43`, `y = 1` the two guarding conjuncts of `condition2` hold on
`crashGrid`, so the JS code reads `imgarr[44][1]` and throws. -/
lemma cleanStep_crash_43 : cleanStep crashGrid 43 1 = none := by
  simp [cleanStep, jread, crashGrid]

lemma cleanGrid_crash : cleanGrid crashGrid = none := by
  have hsplit : List.range 43 = List.range 42 ++ [42] := by
    rw [← List.range_succ]
  have hrow : ∀ xi ∈ List.range 42,
      (List.range 178).foldlM (fun h yi => cleanStep h (xi + 1) (yi + 1)) crashGrid
        = some crashGrid := by
    intro xi hxi
    rw [List.mem_range] at hxi
    apply foldlM_const_option
    intro yi hyi
    rw [List.mem_range] at hyi
    exact cleanStep_crash_id (xi + 1) (yi + 1) (by omega) (by omega) (by omega) (by omega)
  have h43 : (List.range 178).foldlM (fun h yi => cleanStep h (42 + 1) (yi + 1)) crashGrid
      = none := by
    rw [List.range_succ_eq_map, List.foldlM_cons,
      show cleanStep crashGrid (42 + 1) (0 + 1) = none from cleanStep_crash_43]
    rfl
  have houter := foldlM_const_option
    (fun (g : TGrid) xi => (List.range 178).foldlM (fun h yi => cleanStep h (xi + 1) (yi + 1)) g)
    crashGrid (List.range 42) hrow
  unfold cleanGrid
  rw [hsplit, List.foldlM_append, houter]
  simp only [Option.bind_eq_bind, Option.some_bind]
  rw [List.foldlM_cons, h43]
  rfl

/-- On the all-background grid no cleaning condition ever fires and no
out-of-bounds read is reached (the second conjunct of `condition2` already
fails), so every sweep is the identity. -/
lemma cleanStep_white_id (x y : Nat) (hx1 : 1 ≤ x) (hx2 : x ≤ 43) (hy1 : 1 ≤ y)
    (hy2 : y ≤ 178) : cleanStep whiteGrid x y = some whiteGrid := by
  have hx44 : x < 44 := by omega
  have hxm : x - 1 < 44 := by omega
  have hy179 : y < 179 := by omega
  have hym : y - 1 < 179 := by omega
  by_cases hy3 : y + 1 < 179
  · simp [cleanStep, jread, whiteGrid, hx44, hxm, hy179, hym, hy3]
  · simp [cleanStep, jread, whiteGrid, hx44, hxm, hy179, hym, hy3]

lemma cleanGrid_white : cleanGrid whiteGrid = some whiteGrid := by
  unfold cleanGrid
  apply foldlM_const_option
  intro xi hxi
  rw [List.mem_range] at hxi
  apply foldlM_const_option
  intro yi hyi
  rw [List.mem_range] at hyi
  exact cleanStep_white_id (xi + 1) (yi + 1) (by omega) (by omega) (by omega) (by omega)

/-- `captcha_parse` completes on the all-background grid, with the band
symbols left unevaluated. -/
lemma captcha_parse_white :
    captcha_parse whiteGrid zeroMasks
      = some ((List.range 6).map (fun i => bandChar whiteGrid zeroMasks (30 * i + 30))) := by
  unfold captcha_parse
  rw [cleanGrid_white]
  rfl

set_option maxRecDepth 200000 in
lemma blackCount_zeroMask : blackCount (fun _ _ => 0) = 960 := by decide

lemma hb_zeroMasks : ∀ ch ∈ tmplChars, 0 < blackCount (zeroMasks ch) := by
  intro ch _
  show 0 < blackCount (fun _ _ => 0)
  rw [blackCount_zeroMask]
  omega

set_option maxRecDepth 200000 in
lemma matchCount_white_zero : matchCount whiteGrid (fun _ _ => 0) 30 = 0 := by decide

lemma score_white_zero (ch : Char) : scoreAt whiteGrid (zeroMasks ch) (30 * 1) = 0 := by
  show scoreAt whiteGrid (fun _ _ => 0) 30 = 0
  unfold scoreAt
  rw [matchCount_white_zero]
  simp

/-- On the all-background grid every score ties at 0, and the fold hands the
band to the LAST symbol of the table, `'Z'`. -/
lemma bandChar_white : bandChar whiteGrid zeroMasks (30 * 1) = 'Z' := by
  obtain ⟨k, hk, hsel, _, hlast⟩ := bandChar_lastArgmax whiteGrid zeroMasks (30 * 1) hb_zeroMasks
  have hlen : tmplChars.length = 34 := by decide
  have hk33 : k = 33 := by
    by_contra hne
    have h33 : (33 : Nat) < tmplChars.length := by omega
    have hlt := hlast 33 h33 (by omega)
    rw [score_white_zero, score_white_zero] at hlt
    exact absurd hlt (lt_irrefl 0)
  subst hk33
  rw [hsel]
  have h9 : tmplChars.get? 33 = some 'Z' := by decide
  have h10 := List.get?_eq_get hk
  rw [h9] at h10
  exact (Option.some.inj h10).symm

lemma zeroW_shape : linShapeOk zeroW zeroB := by
  refine ⟨by simp [zeroW], ?_, by simp [zeroB]⟩
  intro r hr
  unfold zeroW at hr
  rw [List.eq_of_mem_replicate hr]
  simp

lemma oneFun_pos : ∀ q : ℚ, 0 < oneFun q := fun _ => one_pos

lemma goodChallenge_elim (o : Option Challenge) (h : goodChallenge o) :
    ∃ c, o = some c ∧ c.csrf ≠ [] ∧ c.solution ≠ [] := by
  cases o with
  | none => exact absurd h (by simp [goodChallenge])
  | some c => exact ⟨c, rfl, h⟩

/-! ## Claim C1 -/

/-- Claim C1 is false as stated: `solveCaptchaFromBase64` performs no
resolution check — a 10×10 source image is decoded and classified without
any error, because `drawImage` silently scales it onto the 200×40 canvas. -/
theorem claim1_counterexample : ¬ claimC1stated := by
  intro h
  have hnone := h demoImage zeroW zeroB oneFun (by decide)
  have hsome : (solveCaptchaFromBase64 demoImage zeroW zeroB oneFun).isSome = true := by decide
  rw [hnone] at hsome
  exact absurd hsome (by decide)

/-- Claim C1 amended: decoding never fails on resolution.  Every
successfully loaded source image, whatever its dimensions, is silently
scaled onto the fixed 200×40 canvas and classified into exactly six symbols
of the linear alphabet. -/
theorem claim1_amended (img : SrcImage) (w : List (List ℚ)) (bias : List ℚ)
    (f : ℚ → ℚ) (hshape : linShapeOk w bias) (_hf : ∀ q, 0 < f q) :
    ∃ out, solveCaptchaFromBase64 img w bias f = some out ∧ out.length = 6 ∧
      ∀ c ∈ out, c ∈ linAlphabet :=
  solveLinearData_spec (drawScaled img) w bias f hshape

theorem claim1_witness :
    linShapeOk zeroW zeroB ∧ (∀ q, 0 < oneFun q) ∧
      ∃ out, solveCaptchaFromBase64 demoImage zeroW zeroB oneFun = some out ∧
        out.length = 6 ∧ ∀ c ∈ out, c ∈ linAlphabet :=
  ⟨zeroW_shape, oneFun_pos,
    claim1_amended demoImage zeroW zeroB oneFun zeroW_shape oneFun_pos⟩

/-! ## Claim C2 -/

/-- Claim C2 is false as stated for the template matcher: on `crashGrid`
(255 across row 42, 0 elsewhere — a well-formed 44×179 grid) the cleaning
pass evaluates `imgarr[44][1]` and throws, so no 6-character string is
returned at all. -/
theorem claim2_counterexample : captcha_parse crashGrid zeroMasks = none := by
  unfold captcha_parse
  rw [cleanGrid_crash]
  rfl

/-- Claim C2 amended: whenever `captcha_parse` completes (the cleaning pass
does not hit its out-of-bounds row-44 read) it returns exactly 6 symbols of
the template alphabet; and the linear classifier, on any decoded image and
well-shaped weight data, returns exactly 6 symbols of its own alphabet. -/
theorem claim2_amended :
    (∀ (g : TGrid) (masks : Char → Mask) (out : List Char),
      captcha_parse g masks = some out →
      out.length = 6 ∧ ∀ c ∈ out, c ∈ tmplChars)
    ∧ (∀ (d : Nat → Nat) (w : List (List ℚ)) (bias : List ℚ) (f : ℚ → ℚ),
      linShapeOk w bias → (∀ q, 0 < f q) →
      ∃ out, solveLinearData d w bias f = some out ∧ out.length = 6 ∧
        ∀ c ∈ out, c ∈ linAlphabet) :=
  ⟨captcha_parse_spec, fun d w bias f hs _ => solveLinearData_spec d w bias f hs⟩

theorem claim2_witness :
    (captcha_parse whiteGrid zeroMasks
      = some ((List.range 6).map (fun i => bandChar whiteGrid zeroMasks (30 * i + 30)))) ∧
    (((List.range 6).map (fun i => bandChar whiteGrid zeroMasks (30 * i + 30))).length = 6 ∧
      ∀ c ∈ (List.range 6).map (fun i => bandChar whiteGrid zeroMasks (30 * i + 30)),
        c ∈ tmplChars) ∧
    linShapeOk zeroW zeroB ∧ (∀ q, 0 < oneFun q) ∧
      ∃ out, solveLinearData blackData zeroW zeroB oneFun = some out ∧
        out.length = 6 ∧ ∀ c ∈ out, c ∈ linAlphabet :=
  ⟨captcha_parse_white, claim2_amended.1 whiteGrid zeroMasks _ captcha_parse_white,
    zeroW_shape, oneFun_pos,
    claim2_amended.2 blackData zeroW zeroB oneFun zeroW_shape oneFun_pos⟩

/-! ## Claim C3 -/

/-- Claim C3 confirmed: when every submission response carries the
credential-failure marker (and challenges are obtainable), `attemptLogin`
stops after a single submission with `{success:false, message:"Invalid
credentials"}` — a credential error is terminal and never retried. -/
theorem claim3_credential_error_terminal (env : LoginEnv)
    (hgood : ∀ n, goodChallenge (env.fetch n))
    (hs : ∀ n, jsIncludes invalidCredMark (env.submit n) = true) :
    attemptLogin env = (.fail invalidCredsMsg, 1, 1) := by
  obtain ⟨c, hc, hcs, hsol⟩ := goodChallenge_elim _ (hgood 0)
  unfold attemptLogin
  rw [loginLoop_round_cred env 4 0 0 c hc hcs hsol (checkResponse_cred _ (hs 0))]

theorem claim3_witness :
    (∀ n, goodChallenge (envAlwaysBadCreds.fetch n)) ∧
    (∀ n, jsIncludes invalidCredMark (envAlwaysBadCreds.submit n) = true) ∧
    attemptLogin envAlwaysBadCreds = (.fail invalidCredsMsg, 1, 1) := by
  have h1 : ∀ n, goodChallenge (envAlwaysBadCreds.fetch n) := by
    intro n
    exact ⟨by decide, by decide⟩
  have h2 : ∀ n, jsIncludes invalidCredMark (envAlwaysBadCreds.submit n) = true := by
    intro n
    show jsIncludes invalidCredMark invalidCredMark = true
    decide
  exact ⟨h1, h2, claim3_credential_error_terminal _ h1 h2⟩

/-! ## Claim C4 -/

/-- Claim C4 is false as stated: if the first submission response contains
the CAPTCHA marker but ALSO the credential marker (which the claim does not
exclude), `checkResponseForErrors` classifies it as a credential failure
first, and `attemptLogin` stops after one submission instead of retrying. -/
theorem claim4_counterexample : ¬ claimC4stated := by
  intro h
  have heq := h envBothMarkers (fun n => ⟨by decide, by decide⟩)
    (by decide) (by decide) (by decide)
  have heval : attemptLogin envBothMarkers = (.fail invalidCredsMsg, 1, 1) := by decide
  rw [heval] at heq
  exact absurd heq (by decide)

/-- Claim C4 amended: additionally assuming the first response does NOT
contain the credential marker, `attemptLogin` succeeds with the second
response body after exactly 2 submissions, fetching a fresh challenge (2
fetches in total) before the second submission. -/
theorem claim4_amended (env : LoginEnv) (hgood : ∀ n, goodChallenge (env.fetch n))
    (h0capt : jsIncludes invalidCaptchaMark (env.submit 0) = true)
    (h0cred : jsIncludes invalidCredMark (env.submit 0) = false)
    (h1cred : jsIncludes invalidCredMark (env.submit 1) = false)
    (h1capt : jsIncludes invalidCaptchaMark (env.submit 1) = false) :
    attemptLogin env = (.ok (env.submit 1), 2, 2) := by
  obtain ⟨c0, hc0, hcs0, hsol0⟩ := goodChallenge_elim _ (hgood 0)
  obtain ⟨c1, hc1, hcs1, hsol1⟩ := goodChallenge_elim _ (hgood 1)
  unfold attemptLogin
  rw [loginLoop_round_captcha env 4 0 0 c0 hc0 hcs0 hsol0
    (checkResponse_captcha _ h0cred h0capt)]
  rw [loginLoop_round_ok env 3 1 1 c1 hc1 hcs1 hsol1
    (checkResponse_clean _ h1cred h1capt)]

theorem claim4_witness :
    (∀ n, goodChallenge (envCaptchaThenOk.fetch n)) ∧
    jsIncludes invalidCaptchaMark (envCaptchaThenOk.submit 0) = true ∧
    jsIncludes invalidCredMark (envCaptchaThenOk.submit 0) = false ∧
    jsIncludes invalidCredMark (envCaptchaThenOk.submit 1) = false ∧
    jsIncludes invalidCaptchaMark (envCaptchaThenOk.submit 1) = false ∧
    attemptLogin envCaptchaThenOk = (.ok (envCaptchaThenOk.submit 1), 2, 2) := by
  have h1 : ∀ n, goodChallenge (envCaptchaThenOk.fetch n) := by
    intro n
    exact ⟨by decide, by decide⟩
  exact ⟨h1, by decide, by decide, by decide, by decide,
    claim4_amended _ h1 (by decide) (by decide) (by decide) (by decide)⟩

/-! ## Claim C5 -/

/-- Claim C5 is false as stated: with no CAPTCHA ever detectable, the inner
`fetchWithSession` loop of 10 fetches is itself retried by the outer 5-cycle
loop of `attemptLogin`, so the failure result arrives after 50 fetches, not
10. -/
theorem claim5_counterexample : ¬ claimC5stated := by
  intro h
  obtain ⟨msg, heq⟩ := h envNoCaptcha (fun _ => rfl)
  have heval : attemptLogin envNoCaptcha = (.fail maxAttemptsMsg, 50, 0) := by decide
  rw [heval] at heq
  have h2 := congrArg (fun t : LoginResult × Nat × Nat => t.2.1) heq
  simp at h2

/-- Claim C5 amended: when no fetched page ever yields a detectable CAPTCHA,
`attemptLogin` fails with the attempts-exhausted message after exactly 50
challenge fetches (10 per each of the 5 outer cycles) and 0 submissions. -/
theorem claim5_amended (env : LoginEnv) (hnone : ∀ n, env.fetch n = none) :
    attemptLogin env = (.fail maxAttemptsMsg, 50, 0) := by
  unfold attemptLogin
  rw [loginLoop_none env hnone 5 0 0]

theorem claim5_witness :
    (∀ n, envNoCaptcha.fetch n = none) ∧
    attemptLogin envNoCaptcha = (.fail maxAttemptsMsg, 50, 0) :=
  ⟨fun _ => rfl, claim5_amended envNoCaptcha (fun _ => rfl)⟩

/-! ## Claim C6 -/

/-- Claim C6 is false as stated: on the all-background grid every symbol
ties at score 0, and the band selects `'Z'` — the LAST symbol of the table —
whereas first-encountered-wins tie-breaking would select `'1'`.  (The
`reduce` keeps its accumulator only on a strictly greater score, so equal
scores hand the band to the later symbol.) -/
theorem claim6_counterexample : ¬ claimC6stated := by
  intro h
  obtain ⟨k, hk, hsel, _, hfirst⟩ := h whiteGrid zeroMasks 1 le_rfl (by omega) hb_zeroMasks
  rw [bandChar_white] at hsel
  rcases Nat.eq_zero_or_pos k with hk0 | hkpos
  · subst hk0
    have h9 : tmplChars.get? 0 = some '1' := by decide
    have h10 := List.get?_eq_get hk
    rw [h9] at h10
    rw [← Option.some.inj h10] at hsel
    exact absurd hsel (by decide)
  · have h0 : (0 : Nat) < tmplChars.length := by decide
    have hlt := hfirst 0 h0 hkpos
    rw [score_white_zero, score_white_zero] at hlt
    exact absurd hlt (lt_irrefl 0)

/-- Claim C6 amended: each band selects a symbol of maximal score (score =
matching template-foreground pixels ÷ total template-foreground pixels),
but ties go to the LAST symbol in table order (every later symbol scores
strictly below the winner), and the image region a band reads is rows 12..43
and columns `[30j-30, 30j-1]` — two grids agreeing there give the same band
symbol. -/
theorem claim6_amended :
    (∀ (g : TGrid) (masks : Char → Mask) (j : Nat), 1 ≤ j → j ≤ 6 →
      (∀ ch ∈ tmplChars, 0 < blackCount (masks ch)) →
      ∃ k, ∃ hk : k < tmplChars.length,
        bandChar g masks (30 * j) = tmplChars.get ⟨k, hk⟩ ∧
        (∀ m, (hm : m < tmplChars.length) →
          scoreAt g (masks (tmplChars.get ⟨m, hm⟩)) (30 * j) ≤
            scoreAt g (masks (tmplChars.get ⟨k, hk⟩)) (30 * j)) ∧
        (∀ m, (hm : m < tmplChars.length) → k < m →
          scoreAt g (masks (tmplChars.get ⟨m, hm⟩)) (30 * j) <
            scoreAt g (masks (tmplChars.get ⟨k, hk⟩)) (30 * j)))
    ∧ (∀ (g g2 : TGrid) (masks : Char → Mask) (j : Nat), 30 ≤ j →
      (∀ x y, 12 ≤ x → x < 44 → j - 30 ≤ y → y < j → y < 179 → g x y = g2 x y) →
      bandChar g masks j = bandChar g2 masks j) :=
  ⟨fun g masks j _ _ hb => bandChar_lastArgmax g masks (30 * j) hb,
   fun g g2 masks j hj hag => bandChar_frame g g2 masks j hj hag⟩

theorem claim6_witness :
    ((1 : Nat) ≤ 1 ∧ (1 : Nat) ≤ 6) ∧ (∀ ch ∈ tmplChars, 0 < blackCount (zeroMasks ch)) ∧
    (∃ k, ∃ hk : k < tmplChars.length,
      bandChar whiteGrid zeroMasks (30 * 1) = tmplChars.get ⟨k, hk⟩ ∧
      (∀ m, (hm : m < tmplChars.length) →
        scoreAt whiteGrid (zeroMasks (tmplChars.get ⟨m, hm⟩)) (30 * 1) ≤
          scoreAt whiteGrid (zeroMasks (tmplChars.get ⟨k, hk⟩)) (30 * 1)) ∧
      (∀ m, (hm : m < tmplChars.length) → k < m →
        scoreAt whiteGrid (zeroMasks (tmplChars.get ⟨m, hm⟩)) (30 * 1) <
          scoreAt whiteGrid (zeroMasks (tmplChars.get ⟨k, hk⟩)) (30 * 1))) ∧
    bandChar whiteGrid zeroMasks 30 = bandChar whiteGrid zeroMasks 30 :=
  ⟨⟨le_rfl, by omega⟩, hb_zeroMasks,
    claim6_amended.1 whiteGrid zeroMasks 1 le_rfl (by omega) hb_zeroMasks,
    claim6_amended.2 whiteGrid whiteGrid zeroMasks 30 le_rfl (fun _ _ _ _ _ _ _ => rfl)⟩

/-! ## Claim C7 -/

/-- Claim C7 is false as stated: the linear classifier's symbol table
`"ABCDEFGHJKLMNPQRSTUVWXYZ23456789"` has 32 symbols, not 33 (24 letters — no
I, no O — plus the 8 digits 2..9). -/
theorem claim7_counterexample : linAlphabet.length = 32 ∧ ¬ linAlphabet.length = 33 := by
  decide

/-- Claim C7 amended: the two pipelines use distinct fixed alphabets that
are never swapped — the template matcher's 34-symbol table (no letter O) and
the linear classifier's 32-symbol table (no I or O, digits last) — and every
completed output of each pipeline is drawn from its own table. -/
theorem claim7_amended :
    tmplChars ≠ linAlphabet ∧ tmplChars.length = 34 ∧ 'O' ∉ tmplChars ∧
    linAlphabet.length = 32 ∧ 'I' ∉ linAlphabet ∧ 'O' ∉ linAlphabet ∧
    (∀ (g : TGrid) (masks : Char → Mask) (out : List Char),
      captcha_parse g masks = some out → ∀ c ∈ out, c ∈ tmplChars) ∧
    (∀ (d : Nat → Nat) (w : List (List ℚ)) (bias : List ℚ) (f : ℚ → ℚ),
      linShapeOk w bias → (∀ q, 0 < f q) →
      ∃ out, solveLinearData d w bias f = some out ∧ ∀ c ∈ out, c ∈ linAlphabet) := by
  refine ⟨by decide, by decide, by decide, by decide, by decide, by decide, ?_, ?_⟩
  · intro g masks out h
    exact (captcha_parse_spec g masks out h).2
  · intro d w bias f hs _
    obtain ⟨out, h1, _, h3⟩ := solveLinearData_spec d w bias f hs
    exact ⟨out, h1, h3⟩

theorem claim7_witness :
    (captcha_parse whiteGrid zeroMasks
      = some ((List.range 6).map (fun i => bandChar whiteGrid zeroMasks (30 * i + 30)))) ∧
    (∀ c ∈ (List.range 6).map (fun i => bandChar whiteGrid zeroMasks (30 * i + 30)),
      c ∈ tmplChars) ∧
    linShapeOk zeroW zeroB ∧ (∀ q, 0 < oneFun q) ∧
      ∃ out, solveLinearData blackData zeroW zeroB oneFun = some out ∧
        ∀ c ∈ out, c ∈ linAlphabet :=
  ⟨captcha_parse_white,
    claim7_amended.2.2.2.2.2.2.1 whiteGrid zeroMasks _ captcha_parse_white,
    zeroW_shape, oneFun_pos,
    claim7_amended.2.2.2.2.2.2.2 blackData zeroW zeroB oneFun zeroW_shape oneFun_pos⟩

/-! ## Claim C8 -/

/-- Claim C8 confirmed: a session strictly older than the idle timeout is
absent after the next sweep, and a `getUserClient` touch at time `tu`
refreshes `lastUsed` so the session survives any sweep at most the timeout
later. -/
theorem claim8_idle_eviction (m : Registry) (u : List Char) (now : Nat) (s : Sess)
    (hnd : (m.map Prod.fst).Nodup) :
    (m.lookup u = some s → SESSION_TIMEOUT < now - s.lastUsed →
      (sweepSessions now m).lookup u = none)
    ∧ (∀ tu ts, ts - tu ≤ SESSION_TIMEOUT →
      ∃ s2, (sweepSessions ts (getUserClient m tu u)).lookup u = some s2 ∧
        s2.lastUsed = tu) := by
  constructor
  · intro hl hold
    unfold sweepSessions
    rw [lookup_filter_of_nodup m u s _ hnd hl]
    simp [hold]
  · intro tu ts hts
    obtain ⟨rest, s2, hgc, hlast⟩ := getUserClient_head m tu u
    refine ⟨s2, ?_, hlast⟩
    rw [hgc]
    unfold sweepSessions
    rw [List.filter_cons]
    have hpred : (!decide (SESSION_TIMEOUT < ts - (u, s2).2.lastUsed)) = true := by
      simp only [hlast]
      simp only [Bool.not_eq_true', decide_eq_false_iff_not, not_lt]
      omega
    rw [if_pos hpred]
    simp [List.lookup]

theorem claim8_witness :
    ((regSample.map Prod.fst).Nodup) ∧
    regSample.lookup user1 = some { lastUsed := 0, auth := none } ∧
    SESSION_TIMEOUT < 10 ^ 9 - (Sess.mk 0 none).lastUsed ∧
    (sweepSessions (10 ^ 9) regSample).lookup user1 = none ∧
    10 - 5 ≤ SESSION_TIMEOUT ∧
    (∃ s2, (sweepSessions 10 (getUserClient regSample 5 user1)).lookup user1 = some s2 ∧
      s2.lastUsed = 5) := by
  have hnd : (regSample.map Prod.fst).Nodup := by simp [regSample]
  refine ⟨hnd, by decide, by decide, ?_, by decide, ?_⟩
  · exact (claim8_idle_eviction regSample user1 (10 ^ 9) ⟨0, none⟩ hnd).1
      (by decide) (by decide)
  · exact (claim8_idle_eviction regSample user1 0 ⟨0, none⟩ hnd).2 5 10 (by decide)

/-! ## Claim C9 -/

/-- Claim C9 is a requirement the code does not meet: the registry has no
per-principal lock or in-flight-login marker.  Two requests for the same new
principal whose synchronous prefixes both run before either login resolves
(the standard Node interleaving, since `attemptLogin` suspends on network
I/O) each pass the `session?.studentId` check and each start a login: 2
login attempts are issued, not 1. -/
theorem claim9_duplicate_login :
    (phaseA user1 0 (phaseA user1 0 { reg := [], loginStarts := 0 })).loginStarts = 2 := by
  decide

/-! ## Claim C10 -/

/-- Claim C10 confirmed: the per-pixel saturation divides by `max` with no
guard, so an all-black pixel (`r = g = b = 0`) produces `0/0 = NaN`
(modelled `none`) — not an integer intensity; on every other pixel the
result is an integer in 0..255. -/
theorem claim10_saturation_not_total :
    satPixel 0 0 0 = none ∧
    (∀ r g b, satPixel r g b = none ↔ r = 0 ∧ g = 0 ∧ b = 0) ∧
    (∀ r g b v, satPixel r g b = some v → 0 ≤ v ∧ v ≤ 255) := by
  refine ⟨rfl, ?_, ?_⟩
  · intro r g b
    simp only [satPixel]
    by_cases h : max r (max g b) = 0
    · rw [if_pos h]
      have h1 := Nat.max_eq_zero_iff.1 h
      have h2 := Nat.max_eq_zero_iff.1 h1.2
      simp [h1.1, h2.1, h2.2]
    · rw [if_neg h]
      constructor
      · intro hc
        exact absurd hc (by simp)
      · intro hz
        exfalso
        apply h
        rw [hz.1, hz.2.1, hz.2.2]
        simp
  · intro r g b v hv
    simp only [satPixel] at hv
    by_cases h : max r (max g b) = 0
    · rw [if_pos h] at hv
      exact absurd hv (by simp)
    · rw [if_neg h] at hv
      have hv2 : v = jsRound (((max r (max g b) - min r (min g b) : Nat) : ℚ) * 255
          / ((max r (max g b) : Nat) : ℚ)) := (Option.some.inj hv).symm
      have hmx : 0 < ((max r (max g b) : Nat) : ℚ) := by
        have := Nat.pos_of_ne_zero h
        exact_mod_cast this
      have hle : ((max r (max g b) - min r (min g b) : Nat) : ℚ)
          ≤ ((max r (max g b) : Nat) : ℚ) := by
        exact_mod_cast Nat.sub_le _ _
      have hq0 : 0 ≤ ((max r (max g b) - min r (min g b) : Nat) : ℚ) * 255
          / ((max r (max g b) : Nat) : ℚ) :=
        div_nonneg (mul_nonneg (Nat.cast_nonneg _) (by norm_num)) (le_of_lt hmx)
      have hq255 : ((max r (max g b) - min r (min g b) : Nat) : ℚ) * 255
          / ((max r (max g b) : Nat) : ℚ) ≤ 255 := by
        rw [div_le_iff₀ hmx]
        nlinarith
      constructor
      · rw [hv2]
        unfold jsRound
        apply Int.le_floor.2
        simp only [Int.cast_zero]
        linarith
      · rw [hv2]
        unfold jsRound
        have h256 : ((256 : Int) : ℚ) = 256 := by norm_num
        have hfl := Int.floor_lt.2 (show ((max r (max g b) - min r (min g b) : Nat) : ℚ) * 255
            / ((max r (max g b) : Nat) : ℚ) + 1 / 2 < ((256 : Int) : ℚ) by
          rw [h256]; linarith)
        omega

lemma satPixel_100 : satPixel 1 0 0 = some 255 := by
  simp only [satPixel]
  norm_num
  unfold jsRound
  rw [Int.floor_eq_iff]
  norm_num

theorem claim10_witness :
    satPixel 1 0 0 = some 255 ∧
    (satPixel 2 3 4 = none ↔ 2 = 0 ∧ 3 = 0 ∧ 4 = 0) ∧
    (0 ≤ (255 : Int) ∧ (255 : Int) ≤ 255) :=
  ⟨satPixel_100, claim10_saturation_not_total.2.1 2 3 4,
    claim10_saturation_not_total.2.2 1 0 0 255 satPixel_100⟩

end VtopApi
